import Mathlib

/-!
Shallow embedding of `pdf_forensics.py` (class `PDFTamperingDetector`) and a
verification of the specified properties of its detection pipeline.

The external collaborators (pikepdf, fitz/PyMuPDF, PIL, numpy, the file
system) are modelled as inputs carried by a `Doc` value: each module receives
the result that its collaborator would have produced (a value, or the message
of the exception it raised).  Everything the Python class itself computes is
translated directly.
-/

namespace PdfForensics

/-- Python substring match at the head of a char list: `needle` is a prefix of
`hay`.  Used to model the `in` operator and `bytes.count`. -/
def subAt : List Char → List Char → Bool
  | [], _ => true
  | _ :: _, [] => false
  | a :: as, b :: bs => if a = b then subAt as bs else false

/-- Python `needle in hay` (substring containment) over char lists. -/
def containsL (n : List Char) : List Char → Bool
  | [] => subAt n []
  | b :: t => subAt n (b :: t) || containsL n t

/-- Python `needle in hay` on strings (the `in` operator of `_check_metadata`). -/
def strContains (needle hay : String) : Bool :=
  containsL needle.data hay.data

/-- Scanning loop of `countOcc` with an explicit step budget (`fuel` is an
upper bound on the scan length, so the recursion is structural): at a match,
count one occurrence and resume after it; otherwise advance one position. -/
def countOccFuel (needle : List Char) : Nat → List Char → Nat
  | 0, _ => 0
  | _ + 1, [] => 0
  | fuel + 1, b :: t =>
    if needle ≠ [] ∧ subAt needle (b :: t) = true then
      1 + countOccFuel needle fuel ((b :: t).drop needle.length)
    else
      countOccFuel needle fuel t

/-- Python `hay.count(needle)` for a non-empty needle: number of
non-overlapping occurrences, scanning left to right (the `%%EOF` count of
`_check_structure`; `b"%%EOF"` has no non-trivial border, so this also equals
the number of positions where the marker occurs).  The fuel `hay.length`
always suffices: every step consumes at least one character. -/
def countOcc (needle hay : List Char) : Nat :=
  countOccFuel needle hay.length hay

/-- Numeric value of an ASCII digit character. -/
def digitVal (c : Char) : Nat := c.toNat - 48

/-- CPython `_strptime` directive `%m`, first alternative `1[0-2]`. -/
def mAlt1 : List Char → Option (Nat × List Char)
  | '1' :: c :: r => if '0' ≤ c ∧ c ≤ '2' then some (10 + digitVal c, r) else none
  | _ => none

/-- CPython `_strptime` directive `%m`, second alternative `0[1-9]`. -/
def mAlt2 : List Char → Option (Nat × List Char)
  | '0' :: c :: r => if '1' ≤ c ∧ c ≤ '9' then some (digitVal c, r) else none
  | _ => none

/-- CPython `_strptime` directive `%m`, third alternative `[1-9]`. -/
def mAlt3 : List Char → Option (Nat × List Char)
  | c :: r => if '1' ≤ c ∧ c ≤ '9' then some (digitVal c, r) else none
  | _ => none

/-- CPython `_strptime` directive `%d`, first alternative `3[01]`. -/
def dAlt1 : List Char → Option (Nat × List Char)
  | '3' :: c :: r => if c = '0' ∨ c = '1' then some (30 + digitVal c, r) else none
  | _ => none

/-- CPython `_strptime` directive `%d`, second alternative `[12]\d`. -/
def dAlt2 : List Char → Option (Nat × List Char)
  | c :: c2 :: r =>
    if ('1' ≤ c ∧ c ≤ '2') ∧ c2.isDigit then
      some (10 * digitVal c + digitVal c2, r)
    else none
  | _ => none

/-- CPython `_strptime` directive `%d`, third alternative `0[1-9]`. -/
def dAlt3 : List Char → Option (Nat × List Char)
  | '0' :: c :: r => if '1' ≤ c ∧ c ≤ '9' then some (digitVal c, r) else none
  | _ => none

/-- CPython `_strptime` directive `%d`, fourth alternative `[1-9]`. -/
def dAlt4 : List Char → Option (Nat × List Char)
  | c :: r => if '1' ≤ c ∧ c ≤ '9' then some (digitVal c, r) else none
  | _ => none

/-- Day-of-month match: the `%d` alternation in priority order. -/
def dMatch (cs : List Char) : Option (Nat × List Char) :=
  dAlt1 cs <|> dAlt2 cs <|> dAlt3 cs <|> dAlt4 cs

/-- Month-then-day match with regex backtracking priority: each `%m`
alternative is tried in order, and for each, the `%d` alternation on the
remainder; the first complete combination wins. -/
def mdMatch (cs : List Char) : Option (Nat × Nat × List Char) :=
  ((mAlt1 cs).bind fun p => (dMatch p.2).map fun q => (p.1, q.1, q.2)) <|>
  ((mAlt2 cs).bind fun p => (dMatch p.2).map fun q => (p.1, q.1, q.2)) <|>
  ((mAlt3 cs).bind fun p => (dMatch p.2).map fun q => (p.1, q.1, q.2))

/-- Gregorian leap year, as in Python `datetime` (proleptic Gregorian). -/
def isLeap (y : Nat) : Bool :=
  y % 4 = 0 && (y % 100 != 0 || y % 400 = 0)

/-- Length of a month, as validated by `datetime.datetime`. -/
def daysInMonth (y m : Nat) : Nat :=
  if m = 2 then (if isLeap y then 29 else 28)
  else if m = 4 ∨ m = 6 ∨ m = 9 ∨ m = 11 then 30
  else 31

/-- A calendar date as produced by `datetime.datetime.strptime(s, "%Y%m%d")`
(time fields are always midnight and are irrelevant to the day difference). -/
structure PyDate where
  y : Nat
  m : Nat
  d : Nat
deriving DecidableEq

/-- Model of `datetime.datetime.strptime(s, "%Y%m%d")`: `%Y` is exactly four
digits; `%m` and `%d` follow the CPython alternations with backtracking; the
whole string must be consumed ("unconverted data remains" otherwise); finally
`datetime` validates the year (`>= 1`) and the day against the month length.
Returns `none` exactly when Python raises (which `_check_metadata` catches). -/
def strptimeYMD (s : String) : Option PyDate :=
  match s.data with
  | c1 :: c2 :: c3 :: c4 :: rest =>
    if c1.isDigit ∧ c2.isDigit ∧ c3.isDigit ∧ c4.isDigit then
      let y := ((digitVal c1 * 10 + digitVal c2) * 10 + digitVal c3) * 10 + digitVal c4
      match mdMatch rest with
      | some (m, d, r) =>
        if r = [] ∧ 1 ≤ y ∧ 1 ≤ d ∧ d ≤ daysInMonth y m then
          some ⟨y, m, d⟩
        else none
      | none => none
    else none
  | _ => none

/-- Days in the months of year `y` strictly before month `m`. -/
def daysBeforeMonth (y m : Nat) : Nat :=
  ((List.range (m - 1)).map fun k => daysInMonth y (k + 1)).sum

/-- Python `datetime.date.toordinal`: day number in the proleptic Gregorian
calendar with `0001-01-01` as day 1. -/
def toOrdinal (dt : PyDate) : Nat :=
  let yp := dt.y - 1
  365 * yp + yp / 4 - yp / 100 + yp / 400 + daysBeforeMonth dt.y dt.m + dt.d

/-- Python `abs((a - b).days)` for two midnight datetimes. -/
def dayDiff (a b : PyDate) : Nat :=
  Int.natAbs ((toOrdinal a : ℤ) - (toOrdinal b : ℤ))

/-- Round to the nearest integer, ties to even (the rounding used by Python
float formatting). -/
def roundHalfEven (x : ℚ) : ℤ :=
  let f := Rat.floor x
  let r := x - (f : ℚ)
  if r < 1 / 2 then f
  else if (1 : ℚ) / 2 < r then f + 1
  else if f % 2 = 0 then f else f + 1

/-- Python `f"{x:.2f}"` for the non-negative ELA scores: two decimal digits,
ties to even.  The score itself is carried as the exact rational value of the
float computed by the external image pipeline. -/
def format2 (q : ℚ) : String :=
  let n := roundHalfEven (q * 100)
  let ip := n / 100
  let fp := (n % 100).toNat
  toString ip ++ "." ++ (if fp < 10 then "0" ++ toString fp else toString fp)

/-- Python `str.lower()` (the metadata values are ASCII). -/
def strLower (s : String) : String := ⟨s.data.map Char.toLower⟩

/-- Python `s[2:10]`: the eight characters after the two-character prefix. -/
def slice2to10 (s : String) : String := ⟨(s.data.drop 2).take 8⟩

/-- The `details` mapping of the report (`self.report["details"]`), one
optional entry per module that recorded data. -/
structure Details where
  metadata : Option (List (String × String))
  visual_analysis : Option (List String)
  fonts : Option (List String)
deriving DecidableEq

/-- Fresh `details` mapping. -/
def initDetails : Details := ⟨none, none, none⟩

/-- The mutable state of a `PDFTamperingDetector`: `self.flags`,
`self.suspicion_score` and the report details.  `apiLog` is verification
instrumentation only: it mirrors the exact sequence of `_add_flag` calls
(message, severity), which the Python state does not retain; no definition
branches on it. -/
structure Detector where
  flags : List String
  suspicion_score : Nat
  details : Details
  apiLog : List (String × Nat)
deriving DecidableEq

/-- `PDFTamperingDetector.__init__`: empty flags, zero score, no details. -/
def initDetector : Detector := ⟨[], 0, initDetails, []⟩

/-- `PDFTamperingDetector._add_flag`: append the message and add the severity
to the score (and record the call in the ghost log). -/
def addFlag (det : Detector) (message : String) (severity : Nat) : Detector :=
  { det with
    flags := det.flags ++ [message]
    suspicion_score := det.suspicion_score + severity
    apiLog := det.apiLog ++ [(message, severity)] }

/-- The severity-3 date-divergence message of `_check_metadata`. -/
def dateMismatchMsg (c m : String) (diff : Nat) : String :=
  "Metadata mismatch: Creation date (" ++ c ++ ") differs from Modification date (" ++
    m ++ ") by " ++ toString diff ++ " days."

/-- The severity-1 sub-day mismatch message of `_check_metadata`. -/
def minorDateMsg : String :=
  "Minor metadata mismatch: Creation date differs from Modification date."

/-- The severity-2 unparsed-date mismatch message of `_check_metadata`. -/
def fallbackDateMsg : String :=
  "Metadata mismatch: Creation date differs from Modification date."

/-- The `suspicious_keywords` list of `_check_metadata`. -/
def suspiciousKeywords : List String :=
  ["gimp", "photoshop", "ilovepdf", "sejda", "smallpdf", "phantompdf"]

/-- The severity-3 keyword message of `_check_metadata`; note that it embeds
the lower-cased `producer` and `creator` values. -/
def keywordMsg (kw producer creator : String) : String :=
  "Suspicious editing tool found in metadata: " ++ kw ++ " (Producer: " ++
    producer ++ ", Creator: " ++ creator ++ ")"

/-- The severity-1 message for a failure to open/read the metadata. -/
def metadataReadFailMsg (e : String) : String :=
  "Could not read metadata: " ++ e

/-- The severity-1 incremental-update message of `_check_structure`. -/
def eofMsg (n : Nat) : String :=
  "Incremental updates detected (Found " ++ toString n ++
    " EOF markers). File may have been edited."

/-- The severity-1 message for an I/O failure in `_check_structure`. -/
def structFailMsg (e : String) : String :=
  "Structure check error: " ++ e

/-- The severity-2 visual-anomaly flag of `_analyze_images` for page `i`
(0-based; the message shows `i+1`).  It names only the page. -/
def visualFlagMsg (i : Nat) : String :=
  "Visual anomaly on Page " ++ toString (i + 1) ++ ": Potential image manipulation detected."

/-- The `image_issues` note of `_analyze_images` for image `j` of page `i`
with ELA score `q`: names page, image index and the score to two decimals. -/
def visualNoteMsg (i j : Nat) (q : ℚ) : String :=
  "Page " ++ toString (i + 1) ++ " Image " ++ toString j ++ ": High ELA score (" ++
    format2 q ++ "), possible manipulation."

/-- Python dict lookup on the metadata dictionary built from `docinfo.items()`
(later occurrences of a key overwrite earlier ones, as in dict insertion). -/
def metaGet (meta : List (String × String)) (k : String) : Option String :=
  meta.foldl (fun acc kv => if kv.1 = k then some kv.2 else acc) none

/-- Check 1 of `_check_metadata`: CreationDate vs ModDate.  The inner
`try/except` around the parsing maps to the `none` cases of `strptimeYMD`. -/
def metaDateCheck (meta : List (String × String)) (det : Detector) : Detector :=
  match metaGet meta "/CreationDate", metaGet meta "/ModDate" with
  | some c, some m =>
    match strptimeYMD (slice2to10 c), strptimeYMD (slice2to10 m) with
    | some cd, some md =>
      let diff := dayDiff md cd
      if 1 < diff then addFlag det (dateMismatchMsg c m diff) 3
      else if c ≠ m then addFlag det minorDateMsg 1
      else det
    | _, _ =>
      if c ≠ m then addFlag det fallbackDateMsg 2 else det
  | _, _ => det

/-- Check 2 of `_check_metadata`: the suspicious Producer/Creator keyword
loop, over the already lower-cased field values. -/
def metaKeywordCheck (producer creator : String) (det : Detector) : Detector :=
  suspiciousKeywords.foldl
    (fun d kw =>
      if strContains kw producer || strContains kw creator then
        addFlag d (keywordMsg kw producer creator) 3
      else d)
    det

/-- `PDFTamperingDetector._check_metadata`.  The input is the result of
`pikepdf.Pdf.open(...).docinfo` (the external collaborator): either the
stringified metadata dictionary or the message of the exception raised.  The
module catches every failure itself (severity-1 flag), so it never raises to
the orchestrator (second component always `none`). -/
def checkMetadata (mres : Except String (List (String × String)))
    (det : Detector) : Detector × Option String :=
  match mres with
  | .error e => (addFlag det (metadataReadFailMsg e) 1, none)
  | .ok meta =>
    let det1 := { det with details := { det.details with metadata := some meta } }
    let det2 := metaDateCheck meta det1
    let producer := strLower ((metaGet meta "/Producer").getD "")
    let creator := strLower ((metaGet meta "/Creator").getD "")
    (metaKeywordCheck producer creator det2, none)

/-- `PDFTamperingDetector._check_structure`.  The input is the result of
reading the raw file bytes; the module catches I/O failures itself, so it
never raises to the orchestrator. -/
def checkStructure (bres : Except String String) (det : Detector) :
    Detector × Option String :=
  match bres with
  | .error e => (addFlag det (structFailMsg e) 1, none)
  | .ok content =>
    let n := countOcc ("%%EOF".data) content.data
    if 1 < n then (addFlag det (eofMsg n) 1, none) else (det, none)

/-- What the external image pipeline does for one embedded image:
`extractFail` – `doc.extract_image` raises (outside the per-image `try`);
`elaFail` – `_compute_ela` raises (inside the per-image `try`);
`elaScore q` – `_compute_ela` returns the score `q`. -/
inductive ImageOutcome where
  | extractFail (e : String)
  | elaFail (e : String)
  | elaScore (q : ℚ)
deriving DecidableEq

/-- Inner loop of `_analyze_images` over the images of page `i`, with `j` the
running `img_index`; `issues` is the local `image_issues` list.  An extraction
failure raises out of the whole module (third component); an ELA failure is
only printed and skipped. -/
def analyzeImagesPage (i j : Nat) (imgs : List ImageOutcome) (det : Detector)
    (issues : List String) : (Detector × List String) × Option String :=
  match imgs with
  | [] => ((det, issues), none)
  | .extractFail e :: _ => ((det, issues), some e)
  | .elaFail _ :: rest => analyzeImagesPage i (j + 1) rest det issues
  | .elaScore q :: rest =>
    if 10 < q then
      analyzeImagesPage i (j + 1) rest (addFlag det (visualFlagMsg i) 2)
        (issues ++ [visualNoteMsg i j q])
    else analyzeImagesPage i (j + 1) rest det issues

/-- Outer loop of `_analyze_images` over the pages, `i` the page index. -/
def analyzeImagesPages (i : Nat) (pages : List (List ImageOutcome))
    (det : Detector) (issues : List String) : (Detector × List String) × Option String :=
  match pages with
  | [] => ((det, issues), none)
  | p :: rest =>
    match analyzeImagesPage i 0 p det issues with
    | ((det2, iss2), some e) => ((det2, iss2), some e)
    | ((det2, iss2), none) => analyzeImagesPages (i + 1) rest det2 iss2

/-- `PDFTamperingDetector._analyze_images`.  The input is the result of
`fitz.open` plus the per-image collaborator outcomes.  When the loop raises,
the local `image_issues` list is discarded (the `details` write at the end of
the function is never reached), but flags added before the failure persist. -/
def analyzeImages (ires : Except String (List (List ImageOutcome)))
    (det : Detector) : Detector × Option String :=
  match ires with
  | .error e => (det, some e)
  | .ok pages =>
    match analyzeImagesPages 0 pages det [] with
    | ((det2, _), some e) => (det2, some e)
    | ((det2, issues), none) =>
      (if issues = [] then det2
       else { det2 with details := { det2.details with visual_analysis := some issues } },
       none)

/-- Font accumulation of `_check_fonts`: a Python `set` modelled as an
insertion-ordered duplicate-free list; a page whose `get_fonts` raises aborts
the whole enumeration. -/
def collectFonts : List (Except String (List String)) → List String →
    Except String (List String)
  | [], acc => .ok acc
  | .error e :: _, _ => .error e
  | .ok fl :: rest, acc =>
    collectFonts rest (fl.foldl (fun a f => if f ∈ a then a else a ++ [f]) acc)

/-- `PDFTamperingDetector._check_fonts`.  The input carries, per page, the
base-font names returned by `page.get_fonts()` or the raised exception.  The
`details["fonts"]` write happens only after the loop completes; the final
`len(fonts) > 5` branch of the source is `pass` and has no effect. -/
def checkFonts (fres : Except String (List (Except String (List String))))
    (det : Detector) : Detector × Option String :=
  match fres with
  | .error e => (det, some e)
  | .ok pages =>
    match collectFonts pages [] with
    | .error e => (det, some e)
    | .ok fonts =>
      ({ det with details := { det.details with fonts := some fonts } }, none)

/-- One document, as seen through the Document Accessor: the result each
module's collaborator produces for it. -/
structure Doc where
  metadataResult : Except String (List (String × String))
  rawBytesResult : Except String String
  imagePagesResult : Except String (List (List ImageOutcome))
  fontPagesResult : Except String (List (Except String (List String)))

/-- The synthetic flag text appended by the `except` arms of `detect`. -/
def failMsg (name e : String) : String := name ++ " analysis failed: " ++ e

/-- One `try/except` arm of `detect`: run the module; if it raises, append
exactly one `"<Module> analysis failed: <cause>"` flag directly to
`self.flags` (not through `_add_flag`, so the score is untouched). -/
def runModule (name : String) (run : Detector → Detector × Option String)
    (det : Detector) : Detector :=
  match run det with
  | (det2, none) => det2
  | (det2, some e) => { det2 with flags := det2.flags ++ [failMsg name e] }

/-- `PDFTamperingDetector.detect`: the four modules in source order, each
wrapped in its own `try/except`; the returned report exposes the accumulated
`flags`, `suspicion_score` and `details` of the instance. -/
def detect (doc : Doc) (det : Detector) : Detector :=
  runModule "Font" (checkFonts doc.fontPagesResult)
    (runModule "Image" (analyzeImages doc.imagePagesResult)
      (runModule "Structural" (checkStructure doc.rawBytesResult)
        (runModule "Metadata" (checkMetadata doc.metadataResult) det)))

/-- Replay a list of `_add_flag` calls (message, severity) on a detector. -/
def applyEvents (det : Detector) (evs : List (String × Nat)) : Detector :=
  evs.foldl (fun d e => addFlag d e.1 e.2) det

/-- Total severity of a list of `_add_flag` calls. -/
def sumSev (evs : List (String × Nat)) : Nat := (evs.map Prod.snd).sum

/-- Denotation of the date check of `_check_metadata`: the `_add_flag` calls
it performs, in order. -/
def dateEvents (meta : List (String × String)) : List (String × Nat) :=
  match metaGet meta "/CreationDate", metaGet meta "/ModDate" with
  | some c, some m =>
    match strptimeYMD (slice2to10 c), strptimeYMD (slice2to10 m) with
    | some cd, some md =>
      let diff := dayDiff md cd
      if 1 < diff then [(dateMismatchMsg c m diff, 3)]
      else if c ≠ m then [(minorDateMsg, 1)]
      else []
    | _, _ =>
      if c ≠ m then [(fallbackDateMsg, 2)] else []
  | _, _ => []

/-- Denotation of the keyword check of `_check_metadata` on the lower-cased
field values: one severity-3 flag per matching keyword, whichever field (or
both) matched. -/
def keywordEvents (producer creator : String) : List (String × Nat) :=
  (suspiciousKeywords.filter fun kw =>
      strContains kw producer || strContains kw creator).map
    fun kw => (keywordMsg kw producer creator, 3)

/-- Denotation of `_check_metadata`: all its `_add_flag` calls, in order. -/
def metadataEvents : Except String (List (String × String)) → List (String × Nat)
  | .error e => [(metadataReadFailMsg e, 1)]
  | .ok meta =>
    dateEvents meta ++
      keywordEvents (strLower ((metaGet meta "/Producer").getD ""))
        (strLower ((metaGet meta "/Creator").getD ""))

/-- Denotation of `_check_structure`: its `_add_flag` calls, in order. -/
def structureEvents : Except String String → List (String × Nat)
  | .error e => [(structFailMsg e, 1)]
  | .ok content =>
    let n := countOcc ("%%EOF".data) content.data
    if 1 < n then [(eofMsg n, 1)] else []

/-- Denotation of the inner image loop: the `_add_flag` calls, the
`image_issues` notes, and the exception (if any) escaping the loop. -/
def imagesCorePage (i j : Nat) :
    List ImageOutcome → List (String × Nat) × List String × Option String
  | [] => ([], [], none)
  | .extractFail e :: _ => ([], [], some e)
  | .elaFail _ :: rest => imagesCorePage i (j + 1) rest
  | .elaScore q :: rest =>
    if 10 < q then
      let t := imagesCorePage i (j + 1) rest
      ((visualFlagMsg i, 2) :: t.1, visualNoteMsg i j q :: t.2.1, t.2.2)
    else imagesCorePage i (j + 1) rest

/-- Denotation of the page loop of `_analyze_images`. -/
def imagesCore (i : Nat) :
    List (List ImageOutcome) → List (String × Nat) × List String × Option String
  | [] => ([], [], none)
  | p :: rest =>
    let t := imagesCorePage i 0 p
    match t.2.2 with
    | some e => (t.1, t.2.1, some e)
    | none =>
      let u := imagesCore (i + 1) rest
      (t.1 ++ u.1, t.2.1 ++ u.2.1, u.2.2)

/-- Denotation of `_analyze_images` on the collaborator result. -/
def imagesDen : Except String (List (List ImageOutcome)) →
    List (String × Nat) × List String × Option String
  | .error e => ([], [], some e)
  | .ok pages => imagesCore 0 pages

/-- The exception (if any) that `_check_fonts` raises to the orchestrator. -/
def fontsErr : Except String (List (Except String (List String))) → Option String
  | .error e => some e
  | .ok pages =>
    match collectFonts pages [] with
    | .error e => some e
    | .ok _ => none

/-- The flags (zero or one) that an `except` arm of `detect` appends. -/
def failFlags (name : String) (err : Option String) : List String :=
  match err with
  | none => []
  | some e => [failMsg name e]

/-- Flags contributed by the metadata module to a `detect` run. -/
def metaC (r : Except String (List (String × String))) : List String :=
  (metadataEvents r).map Prod.fst

/-- Flags contributed by the structural module to a `detect` run. -/
def structC (r : Except String String) : List String :=
  (structureEvents r).map Prod.fst

/-- Flags contributed by the visual module to a `detect` run, the
orchestrator's failure flag included. -/
def imageC (r : Except String (List (List ImageOutcome))) : List String :=
  ((imagesDen r).1).map Prod.fst ++ failFlags "Image" (imagesDen r).2.2

/-- Flags contributed by the font module to a `detect` run: only the
orchestrator's failure flag, since `_check_fonts` never calls `_add_flag`. -/
def fontC (r : Except String (List (Except String (List String)))) : List String :=
  failFlags "Font" (fontsErr r)

/-- The detail update of `_check_metadata` (the snapshot recorded before the
sub-checks run). -/
def metaDetailsUpd (r : Except String (List (String × String)))
    (det : Detector) : Detector :=
  match r with
  | .error _ => det
  | .ok meta => { det with details := { det.details with metadata := some meta } }

/-- No image of any page makes `doc.extract_image` raise. -/
def noExtractB (pages : List (List ImageOutcome)) : Bool :=
  pages.all fun p =>
    p.all fun im =>
      match im with
      | .extractFail _ => false
      | _ => true

/-- Modelled from the amended claim's words: one severity-2 flag (naming the
page) per image whose ELA score exceeds 10.0, in document order. -/
def visualFlagsSpecPage (i : Nat) (imgs : List ImageOutcome) : List (String × Nat) :=
  imgs.filterMap fun im =>
    match im with
    | .elaScore q => if 10 < q then some (visualFlagMsg i, 2) else none
    | _ => none

/-- Modelled from the amended claim's words: one note (naming page, image
index and two-decimal score) per image whose ELA score exceeds 10.0. -/
def visualNotesSpecPage (i j : Nat) : List ImageOutcome → List String
  | [] => []
  | .elaScore q :: rest =>
    if 10 < q then visualNoteMsg i j q :: visualNotesSpecPage i (j + 1) rest
    else visualNotesSpecPage i (j + 1) rest
  | _ :: rest => visualNotesSpecPage i (j + 1) rest

/-- Above-threshold flags over all pages (claim-side restatement). -/
def visualFlagsSpecAux (i : Nat) : List (List ImageOutcome) → List (String × Nat)
  | [] => []
  | p :: rest => visualFlagsSpecPage i p ++ visualFlagsSpecAux (i + 1) rest

/-- Above-threshold flags over all pages, pages numbered from 0. -/
def visualFlagsSpec (pages : List (List ImageOutcome)) : List (String × Nat) :=
  visualFlagsSpecAux 0 pages

/-- Above-threshold notes over all pages (claim-side restatement). -/
def visualNotesSpecAux (i : Nat) : List (List ImageOutcome) → List String
  | [] => []
  | p :: rest => visualNotesSpecPage i 0 p ++ visualNotesSpecAux (i + 1) rest

/-- Above-threshold notes over all pages, pages numbered from 0. -/
def visualNotesSpec (pages : List (List ImageOutcome)) : List String :=
  visualNotesSpecAux 0 pages

/-- A benign document: empty metadata, no bytes, no images, no fonts. -/
def doc0 : Doc := ⟨.ok [], .ok "", .ok [], .ok []⟩

/-- Metadata whose dates parse and differ by 9 days. -/
def meta2w : List (String × String) :=
  [("/CreationDate", "D:20230101120000"), ("/ModDate", "D:20230110120000")]

/-- Document carrying `meta2w`. -/
def doc2w : Doc := ⟨.ok meta2w, .ok "", .ok [], .ok []⟩

/-- Document with a single image of ELA score 25.5 (above threshold). -/
def doc3cx : Doc := ⟨.ok [], .ok "", .ok [[.elaScore (51 / 2)]], .ok []⟩

/-- Pages with one above-threshold and one below-threshold image. -/
def pages3w : List (List ImageOutcome) := [[.elaScore 20, .elaScore 1]]

/-- Document whose image collaborator fails to open the file. -/
def doc5w : Doc := ⟨.ok [], .ok "", .error "boom", .ok []⟩

/-- Metadata whose raw Producer is upper-case `GIMP`. -/
def meta6cx : List (String × String) := [("/Producer", "GIMP")]

/-- Raw bytes containing two end-of-file markers. -/
def content7w : String := "head %%EOF tail %%EOF"

/-- Document whose first image fails extraction while the second image has an
ELA score of 50 (far above threshold). -/
def doc8cx : Doc :=
  ⟨.ok [], .ok "", .ok [[.extractFail "bad xref", .elaScore 50]], .ok []⟩

/-- Document whose font enumeration fails on the second page after the first
page yielded a font. -/
def doc9cx : Doc :=
  ⟨.ok [], .ok "", .ok [], .ok [.ok ["Arial"], .error "read fail"]⟩

/-- Font pages with duplicate base names and a successful enumeration. -/
def pages9w : List (Except String (List String)) :=
  [.ok ["Arial", "Arial", "Times"]]

theorem applyEvents_cons (det : Detector) (e : String × Nat) (evs : List (String × Nat)) :
    applyEvents det (e :: evs) = applyEvents (addFlag det e.1 e.2) evs := rfl

theorem applyEvents_append (det : Detector) (a b : List (String × Nat)) :
    applyEvents det (a ++ b) = applyEvents (applyEvents det a) b := by
  simp [applyEvents, List.foldl_append]

theorem sumSev_append (a b : List (String × Nat)) :
    sumSev (a ++ b) = sumSev a + sumSev b := by
  simp [sumSev]

theorem applyEvents_flags (evs : List (String × Nat)) :
    ∀ det : Detector, (applyEvents det evs).flags = det.flags ++ evs.map Prod.fst := by
  induction evs with
  | nil => intro det; simp [applyEvents]
  | cons e evs ih =>
    intro det
    rw [applyEvents_cons, ih]
    simp [addFlag, List.append_assoc]

theorem applyEvents_apiLog (evs : List (String × Nat)) :
    ∀ det : Detector, (applyEvents det evs).apiLog = det.apiLog ++ evs := by
  induction evs with
  | nil => intro det; simp [applyEvents]
  | cons e evs ih =>
    intro det
    rw [applyEvents_cons, ih]
    simp [addFlag, List.append_assoc]

theorem applyEvents_score (evs : List (String × Nat)) :
    ∀ det : Detector,
      (applyEvents det evs).suspicion_score = det.suspicion_score + sumSev evs := by
  induction evs with
  | nil => intro det; simp [applyEvents, sumSev]
  | cons e evs ih =>
    intro det
    rw [applyEvents_cons, ih]
    simp [addFlag, sumSev, Nat.add_assoc]

theorem applyEvents_details (evs : List (String × Nat)) :
    ∀ det : Detector, (applyEvents det evs).details = det.details := by
  induction evs with
  | nil => intro det; rfl
  | cons e evs ih =>
    intro det
    rw [applyEvents_cons, ih]
    rfl

theorem subAt_self_append (n s : List Char) : subAt n (n ++ s) = true := by
  induction n with
  | nil => simp [subAt]
  | cons a as ih => simp [subAt, ih]

theorem containsL_self_append (n p s : List Char) :
    containsL n (p ++ (n ++ s)) = true := by
  induction p with
  | nil =>
    rw [List.nil_append]
    cases h : n ++ s with
    | nil =>
      have hn : n = [] := (List.append_eq_nil.mp h).1
      simp [containsL, hn, subAt]
    | cons b t =>
      have hs : subAt n (n ++ s) = true := subAt_self_append n s
      rw [h] at hs
      simp [containsL, hs]
  | cons a p ih =>
    simp only [List.cons_append]
    simp [containsL, ih]

theorem strData_append (s t : String) : (s ++ t).data = s.data ++ t.data := by
  cases s; cases t; rfl

theorem strContains_of_data (a b : String) (p s : List Char)
    (hd : b.data = p ++ (a.data ++ s)) : strContains a b = true := by
  rw [strContains, hd]
  exact containsL_self_append a.data p s

theorem names_dateMismatch (c m : String) (diff : Nat) :
    strContains c (dateMismatchMsg c m diff) = true
    ∧ strContains m (dateMismatchMsg c m diff) = true
    ∧ strContains (toString diff) (dateMismatchMsg c m diff) = true := by
  refine ⟨?_, ?_, ?_⟩
  · exact strContains_of_data _ _ ("Metadata mismatch: Creation date (".data)
      ((") differs from Modification date (" ++ m ++ ") by " ++ toString diff ++ " days.").data)
      (by simp [dateMismatchMsg, strData_append, List.append_assoc])
  · exact strContains_of_data _ _
      (("Metadata mismatch: Creation date (" ++ c ++ ") differs from Modification date (").data)
      ((") by " ++ toString diff ++ " days.").data)
      (by simp [dateMismatchMsg, strData_append, List.append_assoc])
  · exact strContains_of_data _ _
      (("Metadata mismatch: Creation date (" ++ c ++ ") differs from Modification date (" ++
        m ++ ") by ").data)
      (" days.".data)
      (by simp [dateMismatchMsg, strData_append, List.append_assoc])

theorem names_keyword (kw p c : String) :
    strContains kw (keywordMsg kw p c) = true
    ∧ strContains p (keywordMsg kw p c) = true
    ∧ strContains c (keywordMsg kw p c) = true := by
  refine ⟨?_, ?_, ?_⟩
  · exact strContains_of_data _ _ ("Suspicious editing tool found in metadata: ".data)
      ((" (Producer: " ++ p ++ ", Creator: " ++ c ++ ")").data)
      (by simp [keywordMsg, strData_append, List.append_assoc])
  · exact strContains_of_data _ _
      (("Suspicious editing tool found in metadata: " ++ kw ++ " (Producer: ").data)
      ((", Creator: " ++ c ++ ")").data)
      (by simp [keywordMsg, strData_append, List.append_assoc])
  · exact strContains_of_data _ _
      (("Suspicious editing tool found in metadata: " ++ kw ++ " (Producer: " ++ p ++
        ", Creator: ").data)
      (")".data)
      (by simp [keywordMsg, strData_append, List.append_assoc])

theorem names_eof (n : Nat) : strContains (toString n) (eofMsg n) = true := by
  exact strContains_of_data _ _ ("Incremental updates detected (Found ".data)
    (" EOF markers). File may have been edited.".data)
    (by simp [eofMsg, strData_append, List.append_assoc])

theorem names_visualFlag (i : Nat) :
    strContains (toString (i + 1)) (visualFlagMsg i) = true := by
  exact strContains_of_data _ _ ("Visual anomaly on Page ".data)
    (": Potential image manipulation detected.".data)
    (by simp [visualFlagMsg, strData_append, List.append_assoc])

theorem names_visualNote (i j : Nat) (q : ℚ) :
    strContains (toString (i + 1)) (visualNoteMsg i j q) = true
    ∧ strContains (toString j) (visualNoteMsg i j q) = true
    ∧ strContains (format2 q) (visualNoteMsg i j q) = true := by
  refine ⟨?_, ?_, ?_⟩
  · exact strContains_of_data _ _ ("Page ".data)
      ((" Image " ++ toString j ++ ": High ELA score (" ++ format2 q ++
        "), possible manipulation.").data)
      (by simp [visualNoteMsg, strData_append, List.append_assoc])
  · exact strContains_of_data _ _ (("Page " ++ toString (i + 1) ++ " Image ").data)
      ((": High ELA score (" ++ format2 q ++ "), possible manipulation.").data)
      (by simp [visualNoteMsg, strData_append, List.append_assoc])
  · exact strContains_of_data _ _
      (("Page " ++ toString (i + 1) ++ " Image " ++ toString j ++ ": High ELA score (").data)
      ("), possible manipulation.".data)
      (by simp [visualNoteMsg, strData_append, List.append_assoc])

theorem metaDateCheck_eq (meta : List (String × String)) (det : Detector) :
    metaDateCheck meta det = applyEvents det (dateEvents meta) := by
  unfold metaDateCheck dateEvents
  cases hc : metaGet meta "/CreationDate" with
  | none => rfl
  | some c =>
    cases hm : metaGet meta "/ModDate" with
    | none => rfl
    | some m =>
      dsimp only
      cases hpc : strptimeYMD (slice2to10 c) with
      | none =>
        cases hpm : strptimeYMD (slice2to10 m) with
        | none => dsimp only; split_ifs <;> rfl
        | some md => dsimp only; split_ifs <;> rfl
      | some cd =>
        cases hpm : strptimeYMD (slice2to10 m) with
        | none => dsimp only; split_ifs <;> rfl
        | some md => dsimp only; split_ifs <;> rfl

theorem keywordFold_eq (p c : String) :
    ∀ (kws : List String) (det : Detector),
      kws.foldl
        (fun d kw =>
          if strContains kw p || strContains kw c then
            addFlag d (keywordMsg kw p c) 3
          else d)
        det
      = applyEvents det
          ((kws.filter fun kw => strContains kw p || strContains kw c).map
            fun kw => (keywordMsg kw p c, 3)) := by
  intro kws
  induction kws with
  | nil => intro det; rfl
  | cons k ks ih =>
    intro det
    simp only [List.foldl_cons, List.filter_cons]
    by_cases hk : (strContains k p || strContains k c) = true
    · rw [if_pos hk, if_pos hk, List.map_cons, applyEvents_cons]
      exact ih _
    · rw [if_neg hk, if_neg hk]
      exact ih _

theorem metaKeywordCheck_eq (p c : String) (det : Detector) :
    metaKeywordCheck p c det = applyEvents det (keywordEvents p c) := by
  unfold metaKeywordCheck keywordEvents
  exact keywordFold_eq p c suspiciousKeywords det

theorem checkMetadata_fst (r : Except String (List (String × String))) (det : Detector) :
    (checkMetadata r det).1 = applyEvents (metaDetailsUpd r det) (metadataEvents r) := by
  cases r with
  | error e => rfl
  | ok meta =>
    show metaKeywordCheck _ _ (metaDateCheck meta _) = _
    rw [metaKeywordCheck_eq, metaDateCheck_eq]
    rw [show metadataEvents (.ok meta) =
      dateEvents meta ++
        keywordEvents (strLower ((metaGet meta "/Producer").getD ""))
          (strLower ((metaGet meta "/Creator").getD "")) from rfl]
    rw [applyEvents_append]
    rfl

theorem checkMetadata_snd (r : Except String (List (String × String))) (det : Detector) :
    (checkMetadata r det).2 = none := by
  cases r <;> rfl

theorem metaDetailsUpd_flags (r : Except String (List (String × String))) (det : Detector) :
    (metaDetailsUpd r det).flags = det.flags := by
  cases r <;> rfl

theorem metaDetailsUpd_apiLog (r : Except String (List (String × String))) (det : Detector) :
    (metaDetailsUpd r det).apiLog = det.apiLog := by
  cases r <;> rfl

theorem metaDetailsUpd_score (r : Except String (List (String × String))) (det : Detector) :
    (metaDetailsUpd r det).suspicion_score = det.suspicion_score := by
  cases r <;> rfl

theorem checkStructure_fst (r : Except String String) (det : Detector) :
    (checkStructure r det).1 = applyEvents det (structureEvents r) := by
  cases r with
  | error e => rfl
  | ok content =>
    unfold checkStructure structureEvents
    dsimp only
    split_ifs <;> rfl

theorem checkStructure_snd (r : Except String String) (det : Detector) :
    (checkStructure r det).2 = none := by
  cases r with
  | error e => rfl
  | ok content =>
    unfold checkStructure
    dsimp only
    split_ifs <;> rfl

theorem analyzeImagesPage_char (i : Nat) (imgs : List ImageOutcome) :
    ∀ (j : Nat) (det : Detector) (issues : List String),
      analyzeImagesPage i j imgs det issues =
        ((applyEvents det (imagesCorePage i j imgs).1,
          issues ++ (imagesCorePage i j imgs).2.1),
         (imagesCorePage i j imgs).2.2) := by
  induction imgs with
  | nil => intro j det iss; simp [analyzeImagesPage, imagesCorePage, applyEvents]
  | cons img rest ih =>
    intro j det iss
    cases img with
    | extractFail e => simp [analyzeImagesPage, imagesCorePage, applyEvents]
    | elaFail e => simp [analyzeImagesPage, imagesCorePage, ih]
    | elaScore q =>
      by_cases hq : (10 : ℚ) < q
      · simp [analyzeImagesPage, imagesCorePage, hq, ih, applyEvents_cons]
      · simp [analyzeImagesPage, imagesCorePage, hq, ih]

theorem analyzeImagesPages_char (pages : List (List ImageOutcome)) :
    ∀ (i : Nat) (det : Detector) (issues : List String),
      analyzeImagesPages i pages det issues =
        ((applyEvents det (imagesCore i pages).1,
          issues ++ (imagesCore i pages).2.1),
         (imagesCore i pages).2.2) := by
  induction pages with
  | nil => intro i det iss; simp [analyzeImagesPages, imagesCore, applyEvents]
  | cons p rest ih =>
    intro i det iss
    rw [show analyzeImagesPages i (p :: rest) det iss =
      (match analyzeImagesPage i 0 p det iss with
       | ((det2, iss2), some e) => ((det2, iss2), some e)
       | ((det2, iss2), none) => analyzeImagesPages (i + 1) rest det2 iss2) from rfl]
    rw [analyzeImagesPage_char]
    cases he : (imagesCorePage i 0 p).2.2 with
    | some e => simp [imagesCore, he]
    | none => simp [imagesCore, he, ih, applyEvents_append, List.append_assoc]

theorem analyzeImages_snd (r : Except String (List (List ImageOutcome))) (det : Detector) :
    (analyzeImages r det).2 = (imagesDen r).2.2 := by
  cases r with
  | error e => rfl
  | ok pages =>
    unfold analyzeImages imagesDen
    dsimp only
    rw [analyzeImagesPages_char]
    cases he : (imagesCore 0 pages).2.2 <;> simp [he]

theorem analyzeImages_fst_flags (r : Except String (List (List ImageOutcome)))
    (det : Detector) :
    ((analyzeImages r det).1).flags = det.flags ++ ((imagesDen r).1).map Prod.fst := by
  cases r with
  | error e => simp [analyzeImages, imagesDen]
  | ok pages =>
    unfold analyzeImages imagesDen
    dsimp only
    rw [analyzeImagesPages_char]
    cases he : (imagesCore 0 pages).2.2 with
    | some e => simp [he, applyEvents_flags]
    | none =>
      simp only [he]
      split <;> simp [applyEvents_flags]

theorem analyzeImages_fst_apiLog (r : Except String (List (List ImageOutcome)))
    (det : Detector) :
    ((analyzeImages r det).1).apiLog = det.apiLog ++ (imagesDen r).1 := by
  cases r with
  | error e => simp [analyzeImages, imagesDen]
  | ok pages =>
    unfold analyzeImages imagesDen
    dsimp only
    rw [analyzeImagesPages_char]
    cases he : (imagesCore 0 pages).2.2 with
    | some e => simp [he, applyEvents_apiLog]
    | none =>
      simp only [he]
      split <;> simp [applyEvents_apiLog]

theorem analyzeImages_fst_score (r : Except String (List (List ImageOutcome)))
    (det : Detector) :
    ((analyzeImages r det).1).suspicion_score =
      det.suspicion_score + sumSev ((imagesDen r).1) := by
  cases r with
  | error e => simp [analyzeImages, imagesDen, sumSev]
  | ok pages =>
    unfold analyzeImages imagesDen
    dsimp only
    rw [analyzeImagesPages_char]
    cases he : (imagesCore 0 pages).2.2 with
    | some e => simp [he, applyEvents_score]
    | none =>
      simp only [he]
      split <;> simp [applyEvents_score]

theorem analyzeImages_details_ok (pages : List (List ImageOutcome)) (det : Detector)
    (he : (imagesCore 0 pages).2.2 = none) :
    ((analyzeImages (.ok pages) det).1).details =
      (if (imagesCore 0 pages).2.1 = [] then det.details
       else { det.details with visual_analysis := some (imagesCore 0 pages).2.1 }) := by
  unfold analyzeImages
  dsimp only
  rw [analyzeImagesPages_char]
  simp only [he, List.nil_append]
  split <;> simp [applyEvents_details, *]

theorem checkFonts_snd (r : Except String (List (Except String (List String))))
    (det : Detector) : (checkFonts r det).2 = fontsErr r := by
  cases r with
  | error e => rfl
  | ok pages =>
    unfold checkFonts fontsErr
    cases hf : collectFonts pages [] <;> simp [hf]

theorem checkFonts_fst_flags (r : Except String (List (Except String (List String))))
    (det : Detector) : ((checkFonts r det).1).flags = det.flags := by
  cases r with
  | error e => rfl
  | ok pages =>
    unfold checkFonts
    cases hf : collectFonts pages [] <;> simp [hf]

theorem checkFonts_fst_apiLog (r : Except String (List (Except String (List String))))
    (det : Detector) : ((checkFonts r det).1).apiLog = det.apiLog := by
  cases r with
  | error e => rfl
  | ok pages =>
    unfold checkFonts
    cases hf : collectFonts pages [] <;> simp [hf]

theorem checkFonts_fst_score (r : Except String (List (Except String (List String))))
    (det : Detector) : ((checkFonts r det).1).suspicion_score = det.suspicion_score := by
  cases r with
  | error e => rfl
  | ok pages =>
    unfold checkFonts
    cases hf : collectFonts pages [] <;> simp [hf]

theorem runModule_eq_none (name : String) (f : Detector → Detector × Option String)
    (det : Detector) (h : (f det).2 = none) : runModule name f det = (f det).1 := by
  unfold runModule
  rcases hf : f det with ⟨d2, o⟩
  rw [hf] at h
  cases o with
  | none => rfl
  | some e => simp at h

theorem runModule_eq_some (name : String) (f : Detector → Detector × Option String)
    (det : Detector) (e : String) (h : (f det).2 = some e) :
    runModule name f det =
      { (f det).1 with flags := ((f det).1).flags ++ [failMsg name e] } := by
  unfold runModule
  rcases hf : f det with ⟨d2, o⟩
  rw [hf] at h
  cases o with
  | none => simp at h
  | some e2 =>
    simp only [Option.some.injEq] at h
    subst h
    rfl

theorem runMeta_flags (r : Except String (List (String × String))) (det : Detector) :
    (runModule "Metadata" (checkMetadata r) det).flags = det.flags ++ metaC r := by
  rw [runModule_eq_none _ _ _ (checkMetadata_snd r det), checkMetadata_fst,
    applyEvents_flags, metaDetailsUpd_flags]
  rfl

theorem runMeta_apiLog (r : Except String (List (String × String))) (det : Detector) :
    (runModule "Metadata" (checkMetadata r) det).apiLog =
      det.apiLog ++ metadataEvents r := by
  rw [runModule_eq_none _ _ _ (checkMetadata_snd r det), checkMetadata_fst,
    applyEvents_apiLog, metaDetailsUpd_apiLog]

theorem runMeta_score (r : Except String (List (String × String))) (det : Detector) :
    (runModule "Metadata" (checkMetadata r) det).suspicion_score =
      det.suspicion_score + sumSev (metadataEvents r) := by
  rw [runModule_eq_none _ _ _ (checkMetadata_snd r det), checkMetadata_fst,
    applyEvents_score, metaDetailsUpd_score]

theorem runStruct_flags (r : Except String String) (det : Detector) :
    (runModule "Structural" (checkStructure r) det).flags = det.flags ++ structC r := by
  rw [runModule_eq_none _ _ _ (checkStructure_snd r det), checkStructure_fst,
    applyEvents_flags]
  rfl

theorem runStruct_apiLog (r : Except String String) (det : Detector) :
    (runModule "Structural" (checkStructure r) det).apiLog =
      det.apiLog ++ structureEvents r := by
  rw [runModule_eq_none _ _ _ (checkStructure_snd r det), checkStructure_fst,
    applyEvents_apiLog]

theorem runStruct_score (r : Except String String) (det : Detector) :
    (runModule "Structural" (checkStructure r) det).suspicion_score =
      det.suspicion_score + sumSev (structureEvents r) := by
  rw [runModule_eq_none _ _ _ (checkStructure_snd r det), checkStructure_fst,
    applyEvents_score]

theorem runImage_flags (r : Except String (List (List ImageOutcome))) (det : Detector) :
    (runModule "Image" (analyzeImages r) det).flags = det.flags ++ imageC r := by
  cases he : (imagesDen r).2.2 with
  | none =>
    rw [runModule_eq_none _ _ _ (by rw [analyzeImages_snd, he]),
      analyzeImages_fst_flags]
    simp [imageC, he, failFlags]
  | some e =>
    rw [runModule_eq_some _ _ _ e (by rw [analyzeImages_snd, he])]
    simp [analyzeImages_fst_flags, imageC, he, failFlags, List.append_assoc]

theorem runImage_apiLog (r : Except String (List (List ImageOutcome))) (det : Detector) :
    (runModule "Image" (analyzeImages r) det).apiLog = det.apiLog ++ (imagesDen r).1 := by
  cases he : (imagesDen r).2.2 with
  | none =>
    rw [runModule_eq_none _ _ _ (by rw [analyzeImages_snd, he]),
      analyzeImages_fst_apiLog]
  | some e =>
    rw [runModule_eq_some _ _ _ e (by rw [analyzeImages_snd, he])]
    simp [analyzeImages_fst_apiLog]

theorem runImage_score (r : Except String (List (List ImageOutcome))) (det : Detector) :
    (runModule "Image" (analyzeImages r) det).suspicion_score =
      det.suspicion_score + sumSev ((imagesDen r).1) := by
  cases he : (imagesDen r).2.2 with
  | none =>
    rw [runModule_eq_none _ _ _ (by rw [analyzeImages_snd, he]),
      analyzeImages_fst_score]
  | some e =>
    rw [runModule_eq_some _ _ _ e (by rw [analyzeImages_snd, he])]
    simp [analyzeImages_fst_score]

theorem runFont_flags (r : Except String (List (Except String (List String))))
    (det : Detector) :
    (runModule "Font" (checkFonts r) det).flags = det.flags ++ fontC r := by
  cases he : fontsErr r with
  | none =>
    rw [runModule_eq_none _ _ _ (by rw [checkFonts_snd, he]), checkFonts_fst_flags]
    simp [fontC, he, failFlags]
  | some e =>
    rw [runModule_eq_some _ _ _ e (by rw [checkFonts_snd, he])]
    simp [checkFonts_fst_flags, fontC, he, failFlags]

theorem runFont_apiLog (r : Except String (List (Except String (List String))))
    (det : Detector) :
    (runModule "Font" (checkFonts r) det).apiLog = det.apiLog := by
  cases he : fontsErr r with
  | none =>
    rw [runModule_eq_none _ _ _ (by rw [checkFonts_snd, he]), checkFonts_fst_apiLog]
  | some e =>
    rw [runModule_eq_some _ _ _ e (by rw [checkFonts_snd, he])]
    simp [checkFonts_fst_apiLog]

theorem runFont_score (r : Except String (List (Except String (List String))))
    (det : Detector) :
    (runModule "Font" (checkFonts r) det).suspicion_score = det.suspicion_score := by
  cases he : fontsErr r with
  | none =>
    rw [runModule_eq_none _ _ _ (by rw [checkFonts_snd, he]), checkFonts_fst_score]
  | some e =>
    rw [runModule_eq_some _ _ _ e (by rw [checkFonts_snd, he])]
    simp [checkFonts_fst_score]

theorem detect_flags (doc : Doc) (det : Detector) :
    (detect doc det).flags =
      det.flags ++ metaC doc.metadataResult ++ structC doc.rawBytesResult ++
        imageC doc.imagePagesResult ++ fontC doc.fontPagesResult := by
  unfold detect
  rw [runFont_flags, runImage_flags, runStruct_flags, runMeta_flags]

theorem detect_apiLog (doc : Doc) (det : Detector) :
    (detect doc det).apiLog =
      det.apiLog ++ metadataEvents doc.metadataResult ++
        structureEvents doc.rawBytesResult ++ (imagesDen doc.imagePagesResult).1 := by
  unfold detect
  rw [runFont_apiLog, runImage_apiLog, runStruct_apiLog, runMeta_apiLog]

theorem detect_score (doc : Doc) (det : Detector) :
    (detect doc det).suspicion_score =
      det.suspicion_score + sumSev (metadataEvents doc.metadataResult) +
        sumSev (structureEvents doc.rawBytesResult) +
        sumSev ((imagesDen doc.imagePagesResult).1) := by
  unfold detect
  rw [runFont_score, runImage_score, runStruct_score, runMeta_score]

theorem imagesCorePage_noExtract (i : Nat) (imgs : List ImageOutcome)
    (h : (imgs.all fun im =>
        match im with
        | .extractFail _ => false
        | _ => true) = true) :
    ∀ j, imagesCorePage i j imgs =
      (visualFlagsSpecPage i imgs, visualNotesSpecPage i j imgs, none) := by
  induction imgs with
  | nil => intro j; rfl
  | cons img rest ih =>
    rw [List.all_cons, Bool.and_eq_true] at h
    intro j
    cases img with
    | extractFail e => simp at h
    | elaFail e =>
      simp [imagesCorePage, visualFlagsSpecPage, visualNotesSpecPage,
        List.filterMap_cons, ih h.2]
    | elaScore q =>
      by_cases hq : (10 : ℚ) < q
      · simp [imagesCorePage, visualFlagsSpecPage, visualNotesSpecPage,
          List.filterMap_cons, hq, ih h.2]
      · simp [imagesCorePage, visualFlagsSpecPage, visualNotesSpecPage,
          List.filterMap_cons, hq, ih h.2]

theorem imagesCore_noExtract (pages : List (List ImageOutcome)) :
    ∀ i, noExtractB pages = true →
      imagesCore i pages = (visualFlagsSpecAux i pages, visualNotesSpecAux i pages, none) := by
  induction pages with
  | nil => intro i h; rfl
  | cons p rest ih =>
    intro i h
    rw [noExtractB, List.all_cons, Bool.and_eq_true] at h
    have hrest : noExtractB rest = true := h.2
    simp only [imagesCore, imagesCorePage_noExtract i p h.1 0, ih (i + 1) hrest,
      visualFlagsSpecAux, visualNotesSpecAux]

theorem insertFold_nodup (fl : List String) :
    ∀ acc : List String, acc.Nodup →
      (fl.foldl (fun a f => if f ∈ a then a else a ++ [f]) acc).Nodup := by
  induction fl with
  | nil => intro acc h; exact h
  | cons f fl ih =>
    intro acc h
    simp only [List.foldl_cons]
    by_cases hf : f ∈ acc
    · rw [if_pos hf]; exact ih acc h
    · rw [if_neg hf]
      refine ih _ ?_
      simp [List.nodup_append, h, hf]

theorem collectFonts_nodup (pages : List (Except String (List String))) :
    ∀ acc : List String, acc.Nodup →
      ∀ fonts, collectFonts pages acc = .ok fonts → fonts.Nodup := by
  induction pages with
  | nil =>
    intro acc h fonts heq
    simp only [collectFonts, Except.ok.injEq] at heq
    exact heq ▸ h
  | cons pg rest ih =>
    intro acc h fonts heq
    cases pg with
    | error e => simp [collectFonts] at heq
    | ok fl =>
      rw [show collectFonts (.ok fl :: rest) acc =
        collectFonts rest (fl.foldl (fun a f => if f ∈ a then a else a ++ [f]) acc)
        from rfl] at heq
      exact ih _ (insertFold_nodup fl acc h) fonts heq

/-- C1: at every point during a detect run and at completion, the suspicion
score equals the sum of the severities of all flags emitted so far through the
`_add_flag` API; it is a non-negative (`Nat`) integer that each `_add_flag`
call increases by exactly its severity and that `detect` never decreases. -/
theorem C1_score_additivity :
    (∀ (det : Detector) (m : String) (s : Nat),
        (addFlag det m s).suspicion_score = det.suspicion_score + s
        ∧ (addFlag det m s).apiLog = det.apiLog ++ [(m, s)]
        ∧ det.suspicion_score ≤ (addFlag det m s).suspicion_score)
    ∧ (∀ evs : List (String × Nat),
        (applyEvents initDetector evs).suspicion_score = sumSev evs)
    ∧ (∀ (doc : Doc) (det : Detector),
        det.suspicion_score = sumSev det.apiLog →
          (detect doc det).suspicion_score = sumSev ((detect doc det).apiLog))
    ∧ (∀ (doc : Doc) (det : Detector),
        det.suspicion_score ≤ (detect doc det).suspicion_score) := by
  refine ⟨?_, ?_, ?_, ?_⟩
  · intro det m s
    exact ⟨rfl, rfl, Nat.le_add_right _ _⟩
  · intro evs
    rw [applyEvents_score]
    have h0 : initDetector.suspicion_score = 0 := rfl
    omega
  · intro doc det h
    rw [detect_score, detect_apiLog, sumSev_append, sumSev_append, sumSev_append, h]
  · intro doc det
    rw [detect_score]
    omega

/-- Witness for C1: the invariant holds concretely after a run on `doc0`. -/
theorem C1_witness :
    (detect doc0 initDetector).suspicion_score =
      sumSev ((detect doc0 initDetector).apiLog) :=
  C1_score_additivity.2.2.1 doc0 initDetector rfl

/-- C2: whenever the metadata carries both dates, both parse as `YYYYMMDD`
after the two-character prefix, and the absolute day difference exceeds 1, a
severity-3 flag naming both raw date strings and the difference is emitted
and the final suspicion score is at least 3. -/
theorem C2_date_divergence (doc : Doc) (meta : List (String × String)) (c m : String)
    (cd md : PyDate)
    (hdoc : doc.metadataResult = .ok meta)
    (hc : metaGet meta "/CreationDate" = some c)
    (hm : metaGet meta "/ModDate" = some m)
    (hpc : strptimeYMD (slice2to10 c) = some cd)
    (hpm : strptimeYMD (slice2to10 m) = some md)
    (hgt : 1 < dayDiff md cd) :
    (dateMismatchMsg c m (dayDiff md cd), 3) ∈ (detect doc initDetector).apiLog
    ∧ strContains c (dateMismatchMsg c m (dayDiff md cd)) = true
    ∧ strContains m (dateMismatchMsg c m (dayDiff md cd)) = true
    ∧ strContains (toString (dayDiff md cd)) (dateMismatchMsg c m (dayDiff md cd)) = true
    ∧ 3 ≤ (detect doc initDetector).suspicion_score := by
  have hdate : dateEvents meta = [(dateMismatchMsg c m (dayDiff md cd), 3)] := by
    unfold dateEvents
    rw [hc, hm]
    dsimp only
    rw [hpc, hpm]
    dsimp only
    rw [if_pos hgt]
  have hmeta : metadataEvents doc.metadataResult =
      dateEvents meta ++
        keywordEvents (strLower ((metaGet meta "/Producer").getD ""))
          (strLower ((metaGet meta "/Creator").getD "")) := by
    rw [hdoc]
    rfl
  have hmem : (dateMismatchMsg c m (dayDiff md cd), 3) ∈
      metadataEvents doc.metadataResult := by
    rw [hmeta, hdate]
    exact List.mem_append_left _ (List.mem_singleton.mpr rfl)
  refine ⟨?_, (names_dateMismatch c m _).1, (names_dateMismatch c m _).2.1,
    (names_dateMismatch c m _).2.2, ?_⟩
  · rw [detect_apiLog]
    have h0 : initDetector.apiLog = [] := rfl
    rw [h0, List.nil_append]
    exact List.mem_append_left _ (List.mem_append_left _ hmem)
  · rw [detect_score]
    have h3 : 3 ≤ sumSev (metadataEvents doc.metadataResult) := by
      rw [hmeta, sumSev_append, hdate]
      have hs : sumSev [(dateMismatchMsg c m (dayDiff md cd), 3)] = 3 := rfl
      omega
    have h0 : initDetector.suspicion_score = 0 := rfl
    omega

/-- Witness for C2: a concrete document whose dates differ by 9 days. -/
theorem C2_witness :
    (dateMismatchMsg "D:20230101120000" "D:20230110120000" 9, 3) ∈
      (detect doc2w initDetector).apiLog
    ∧ 3 ≤ (detect doc2w initDetector).suspicion_score := by
  have h := C2_date_divergence doc2w meta2w "D:20230101120000" "D:20230110120000"
    ⟨2023, 1, 1⟩ ⟨2023, 1, 10⟩ rfl rfl rfl rfl rfl (by decide)
  exact ⟨h.1, h.2.2.2.2⟩

theorem format2_cx : format2 (51 / 2 : ℚ) = "25.50" := by
  have h1 : (51 / 2 : ℚ) * 100 = 2550 := by norm_num
  have h2 : roundHalfEven ((51 / 2 : ℚ) * 100) = 2550 := by
    unfold roundHalfEven
    rw [h1]
    dsimp only
    have h2a : Rat.floor (2550 : ℚ) = 2550 := by decide
    rw [h2a]
    have h3 : (2550 : ℚ) - ((2550 : ℤ) : ℚ) < 1 / 2 := by norm_num
    rw [if_pos h3]
  unfold format2
  rw [h2]
  decide

/-- C3 counterexample: for an image with ELA score 25.5 the single emitted
severity-2 flag does not name the image index or the score (the score appears
only in the `details.visual_analysis` note), contradicting the claim that the
flag names page index, image index and two-decimal score. -/
theorem C3_counterexample :
    (detect doc3cx initDetector).apiLog =
      [("Visual anomaly on Page 1: Potential image manipulation detected.", 2)]
    ∧ strContains (format2 (51 / 2 : ℚ))
        "Visual anomaly on Page 1: Potential image manipulation detected." = false
    ∧ (runModule "Image" (analyzeImages doc3cx.imagePagesResult)
        initDetector).details.visual_analysis =
        some ["Page 1 Image 0: High ELA score (25.50), possible manipulation."]
    ∧ format2 (51 / 2 : ℚ) = "25.50" := by
  have h10 : (10 : ℚ) < 51 / 2 := by norm_num
  have hpage : imagesCorePage 0 0 [ImageOutcome.elaScore (51 / 2)] =
      ([(visualFlagMsg 0, 2)], [visualNoteMsg 0 0 (51 / 2)], none) := by
    simp [imagesCorePage, h10]
  have hcore : imagesCore 0 [[ImageOutcome.elaScore (51 / 2)]] =
      ([(visualFlagMsg 0, 2)], [visualNoteMsg 0 0 (51 / 2)], none) := by
    simp [imagesCore, hpage]
  have hnote : visualNoteMsg 0 0 (51 / 2) =
      "Page 1 Image 0: High ELA score (25.50), possible manipulation." := by
    unfold visualNoteMsg
    rw [format2_cx]
    rfl
  refine ⟨?_, ?_, ?_, format2_cx⟩
  · rw [detect_apiLog]
    rw [show (imagesDen doc3cx.imagePagesResult).1 = [(visualFlagMsg 0, 2)] from by
      rw [show imagesDen doc3cx.imagePagesResult =
        imagesCore 0 [[ImageOutcome.elaScore (51 / 2)]] from rfl, hcore]]
    decide
  · rw [format2_cx]
    decide
  · have hd : doc3cx.imagePagesResult =
        Except.ok [[ImageOutcome.elaScore (51 / 2)]] := rfl
    rw [hd]
    have hden : imagesDen (.ok [[ImageOutcome.elaScore (51 / 2)]]) =
        ([(visualFlagMsg 0, 2)], [visualNoteMsg 0 0 (51 / 2)], none) := hcore
    rw [runModule_eq_none _ _ _ (by rw [analyzeImages_snd, hden]),
      analyzeImages_details_ok _ _ (by rw [hcore]), hcore]
    rw [if_neg (by simp)]
    rw [hnote]

/-- C3 (amended): for every image whose ELA score exceeds 10.0 (and no
extraction failure aborting the module), exactly one severity-2 flag naming
the page index (but not the image index or the score) is emitted, and one
note naming page index, image index and the two-decimal score is appended to
`details.visual_analysis`; images at or below 10.0 produce no flag and no
note. -/
theorem C3_amended_visual (pages : List (List ImageOutcome)) (det : Detector)
    (h : noExtractB pages = true) :
    (runModule "Image" (analyzeImages (.ok pages)) det).apiLog =
      det.apiLog ++ visualFlagsSpec pages
    ∧ (runModule "Image" (analyzeImages (.ok pages)) det).flags =
        det.flags ++ (visualFlagsSpec pages).map Prod.fst
    ∧ (runModule "Image" (analyzeImages (.ok pages)) det).details.visual_analysis =
        (if visualNotesSpec pages = [] then det.details.visual_analysis
         else some (visualNotesSpec pages))
    ∧ (∀ (i j : Nat) (q : ℚ),
        strContains (toString (i + 1)) (visualFlagMsg i) = true
        ∧ strContains (toString (i + 1)) (visualNoteMsg i j q) = true
        ∧ strContains (toString j) (visualNoteMsg i j q) = true
        ∧ strContains (format2 q) (visualNoteMsg i j q) = true) := by
  have hcore : imagesCore 0 pages =
      (visualFlagsSpec pages, visualNotesSpec pages, none) :=
    imagesCore_noExtract pages 0 h
  have hden : imagesDen (.ok pages) =
      (visualFlagsSpec pages, visualNotesSpec pages, none) := hcore
  have hrun : runModule "Image" (analyzeImages (.ok pages)) det =
      (analyzeImages (.ok pages) det).1 :=
    runModule_eq_none _ _ _ (by rw [analyzeImages_snd, hden])
  refine ⟨?_, ?_, ?_, ?_⟩
  · rw [hrun, analyzeImages_fst_apiLog, hden]
  · rw [hrun, analyzeImages_fst_flags, hden]
  · rw [hrun, analyzeImages_details_ok pages det (by rw [hcore]), hcore]
    split_ifs <;> rfl
  · intro i j q
    exact ⟨names_visualFlag i, (names_visualNote i j q).1,
      (names_visualNote i j q).2.1, (names_visualNote i j q).2.2⟩

/-- Witness for C3: one above-threshold and one below-threshold image give
exactly one severity-2 page flag. -/
theorem C3_witness :
    (runModule "Image" (analyzeImages (.ok pages3w)) initDetector).apiLog =
      [("Visual anomaly on Page 1: Potential image manipulation detected.", 2)] := by
  have h := (C3_amended_visual pages3w initDetector (by decide)).1
  rw [h]
  decide

/-- C4: injecting a failure into exactly one module leaves the flags and the
score contributed by the other three modules identical to a run without the
injected failure: both runs decompose into per-module segments, and the
segments of the untouched modules are the same terms in both runs. -/
theorem C4_isolation (doc : Doc) (e : String) :
    ((detect { doc with metadataResult := .error e } initDetector).flags =
        metaC (.error e) ++ structC doc.rawBytesResult ++
          imageC doc.imagePagesResult ++ fontC doc.fontPagesResult
      ∧ (detect doc initDetector).flags =
        metaC doc.metadataResult ++ structC doc.rawBytesResult ++
          imageC doc.imagePagesResult ++ fontC doc.fontPagesResult
      ∧ (detect { doc with metadataResult := .error e } initDetector).suspicion_score =
          sumSev (metadataEvents (.error e)) + sumSev (structureEvents doc.rawBytesResult) +
            sumSev ((imagesDen doc.imagePagesResult).1)
      ∧ (detect doc initDetector).suspicion_score =
          sumSev (metadataEvents doc.metadataResult) +
            sumSev (structureEvents doc.rawBytesResult) +
            sumSev ((imagesDen doc.imagePagesResult).1))
    ∧ ((detect { doc with rawBytesResult := .error e } initDetector).flags =
        metaC doc.metadataResult ++ structC (.error e) ++
          imageC doc.imagePagesResult ++ fontC doc.fontPagesResult
      ∧ (detect { doc with rawBytesResult := .error e } initDetector).suspicion_score =
          sumSev (metadataEvents doc.metadataResult) + sumSev (structureEvents (.error e)) +
            sumSev ((imagesDen doc.imagePagesResult).1))
    ∧ ((detect { doc with imagePagesResult := .error e } initDetector).flags =
        metaC doc.metadataResult ++ structC doc.rawBytesResult ++
          imageC (.error e) ++ fontC doc.fontPagesResult
      ∧ (detect { doc with imagePagesResult := .error e } initDetector).suspicion_score =
          sumSev (metadataEvents doc.metadataResult) +
            sumSev (structureEvents doc.rawBytesResult) + sumSev ((imagesDen (.error e)).1))
    ∧ ((detect { doc with fontPagesResult := .error e } initDetector).flags =
        metaC doc.metadataResult ++ structC doc.rawBytesResult ++
          imageC doc.imagePagesResult ++ fontC (.error e)
      ∧ (detect { doc with fontPagesResult := .error e } initDetector).suspicion_score =
          sumSev (metadataEvents doc.metadataResult) +
            sumSev (structureEvents doc.rawBytesResult) +
            sumSev ((imagesDen doc.imagePagesResult).1)) := by
  refine ⟨⟨?_, ?_, ?_, ?_⟩, ⟨?_, ?_⟩, ⟨?_, ?_⟩, ⟨?_, ?_⟩⟩ <;>
    first
      | (rw [detect_flags]; simp [initDetector])
      | (rw [detect_score]; simp [initDetector])

/-- C5: whenever a module raises to the orchestrator, exactly one synthetic
`"<Module> analysis failed: <cause>"` flag is appended (by direct list append,
so the suspicion score and the `_add_flag` log are untouched), the remaining
modules still contribute their segments, and `detect` (a total function)
still returns a report.  The metadata and structural modules never raise to
the orchestrator: they catch their own failures. -/
theorem C5_module_failure (doc : Doc) (det : Detector) :
    (∀ (det2 : Detector) (e : String),
        analyzeImages doc.imagePagesResult det = (det2, some e) →
          runModule "Image" (analyzeImages doc.imagePagesResult) det =
            { det2 with flags := det2.flags ++ [failMsg "Image" e] })
    ∧ (∀ (det2 : Detector) (e : String),
        checkFonts doc.fontPagesResult det = (det2, some e) →
          runModule "Font" (checkFonts doc.fontPagesResult) det =
            { det2 with flags := det2.flags ++ [failMsg "Font" e] })
    ∧ (checkMetadata doc.metadataResult det).2 = none
    ∧ (checkStructure doc.rawBytesResult det).2 = none
    ∧ (detect doc det).flags =
        det.flags ++ metaC doc.metadataResult ++ structC doc.rawBytesResult ++
          imageC doc.imagePagesResult ++ fontC doc.fontPagesResult
    ∧ (detect doc det).suspicion_score =
        det.suspicion_score + sumSev (metadataEvents doc.metadataResult) +
          sumSev (structureEvents doc.rawBytesResult) +
          sumSev ((imagesDen doc.imagePagesResult).1) := by
  refine ⟨?_, ?_, checkMetadata_snd _ _, checkStructure_snd _ _,
    detect_flags _ _, detect_score _ _⟩
  · intro det2 e hfail
    have h2 : (analyzeImages doc.imagePagesResult det).2 = some e := by rw [hfail]
    rw [runModule_eq_some _ _ _ e h2, hfail]
  · intro det2 e hfail
    have h2 : (checkFonts doc.fontPagesResult det).2 = some e := by rw [hfail]
    rw [runModule_eq_some _ _ _ e h2, hfail]

/-- Witness for C5: the image collaborator fails to open the document and the
orchestrator converts it into exactly one unscored flag. -/
theorem C5_witness :
    runModule "Image" (analyzeImages doc5w.imagePagesResult) initDetector =
      { initDetector with flags := [failMsg "Image" "boom"] } := by
  have h := (C5_module_failure doc5w initDetector).1 initDetector "boom" rfl
  rw [h]
  rfl

/-- C6 counterexample: with raw Producer `"GIMP"` exactly one keyword flag is
emitted, but its message embeds the lower-cased value `"gimp"` and does not
contain the raw field value `"GIMP"`, contradicting the claim that the flag
names the two raw field values. -/
theorem C6_counterexample :
    ((checkMetadata (.ok meta6cx) initDetector).1).apiLog =
      [(keywordMsg "gimp" "gimp" "", 3)]
    ∧ strContains "GIMP" (keywordMsg "gimp" "gimp" "") = false := by
  refine ⟨?_, ?_⟩ <;> decide

/-- C6 (amended): one severity-3 flag per distinct matching keyword,
regardless of whether it matched Producer, Creator, or both; each flag names
the keyword and the two lower-cased (not raw) field values. -/
theorem C6_amended_keywords (meta : List (String × String)) (det : Detector) :
    ((checkMetadata (.ok meta) det).1).apiLog =
      det.apiLog ++ dateEvents meta ++
        keywordEvents (strLower ((metaGet meta "/Producer").getD ""))
          (strLower ((metaGet meta "/Creator").getD ""))
    ∧ (∀ p c, keywordEvents p c =
        (suspiciousKeywords.filter fun kw =>
            strContains kw p || strContains kw c).map
          fun kw => (keywordMsg kw p c, 3))
    ∧ (∀ kw p c, strContains kw (keywordMsg kw p c) = true
        ∧ strContains p (keywordMsg kw p c) = true
        ∧ strContains c (keywordMsg kw p c) = true) := by
  refine ⟨?_, fun p c => rfl, fun kw p c => names_keyword kw p c⟩
  rw [checkMetadata_fst, applyEvents_apiLog, metaDetailsUpd_apiLog]
  show det.apiLog ++ (dateEvents meta ++ keywordEvents _ _) = _
  rw [List.append_assoc]

/-- C7: for raw bytes with `n` occurrences of the end-of-file marker, the
structural module emits exactly one severity-1 flag stating `n` when `n > 1`,
and no flag at all when `n ≤ 1`. -/
theorem C7_eof_markers (content : String) (det : Detector) :
    (1 < countOcc ("%%EOF".data) content.data →
        checkStructure (.ok content) det =
          (addFlag det (eofMsg (countOcc ("%%EOF".data) content.data)) 1, none)
        ∧ strContains (toString (countOcc ("%%EOF".data) content.data))
            (eofMsg (countOcc ("%%EOF".data) content.data)) = true)
    ∧ (countOcc ("%%EOF".data) content.data ≤ 1 →
        checkStructure (.ok content) det = (det, none)) := by
  constructor
  · intro h
    refine ⟨?_, names_eof _⟩
    unfold checkStructure
    dsimp only
    rw [if_pos h]
  · intro h
    unfold checkStructure
    dsimp only
    rw [if_neg (by omega : ¬ 1 < countOcc ("%%EOF".data) content.data)]

/-- Witness for C7: two markers give one severity-1 flag naming the count. -/
theorem C7_witness :
    checkStructure (.ok content7w) initDetector =
      (addFlag initDetector (eofMsg 2) 1, none) := by
  have h := ((C7_eof_markers content7w initDetector).1 (by decide)).1
  exact h

/-- C8 counterexample: the first image of the page fails extraction, and the
whole visual module aborts: the second image, whose ELA score 50 is far above
threshold, is never analyzed (no severity-2 flag, empty `_add_flag` log); the
run produces only the orchestrator's module-failure flag — contradicting the
claim that extraction failures are caught at the image boundary. -/
theorem C8_counterexample :
    (detect doc8cx initDetector).flags = [failMsg "Image" "bad xref"]
    ∧ (detect doc8cx initDetector).apiLog = []
    ∧ (detect doc8cx initDetector).suspicion_score = 0 := by
  refine ⟨?_, ?_, ?_⟩ <;> decide

/-- C8 (amended): a decode/re-encode (ELA) failure on a single image is
caught at the image boundary: the whole module run is identical to one where
that image is simply below threshold — every other image on the same and
other pages is analyzed the same way, nothing is flagged for the failed
image, and the module does not raise.  (Extraction failures, by contrast,
escape to the orchestrator, as the counterexample shows.) -/
theorem C8_amended_ela_skip (P Q : List (List ImageOutcome)) (a b : List ImageOutcome)
    (e : String) (det : Detector) :
    analyzeImages (.ok (P ++ (a ++ ImageOutcome.elaFail e :: b) :: Q)) det =
      analyzeImages (.ok (P ++ (a ++ ImageOutcome.elaScore 0 :: b) :: Q)) det := by
  have h0 : ¬ ((10 : ℚ) < 0) := by norm_num
  have hpage : ∀ i j, imagesCorePage i j (a ++ ImageOutcome.elaFail e :: b) =
      imagesCorePage i j (a ++ ImageOutcome.elaScore 0 :: b) := by
    intro i
    induction a with
    | nil => intro j; simp [imagesCorePage, h0]
    | cons im a ih =>
      intro j
      cases im with
      | extractFail e2 => simp [imagesCorePage]
      | elaFail e2 => simp [imagesCorePage, ih]
      | elaScore q =>
        by_cases hq : (10 : ℚ) < q
        · simp [imagesCorePage, hq, ih]
        · simp [imagesCorePage, hq, ih]
  have hcore : ∀ i, imagesCore i (P ++ (a ++ ImageOutcome.elaFail e :: b) :: Q) =
      imagesCore i (P ++ (a ++ ImageOutcome.elaScore 0 :: b) :: Q) := by
    induction P with
    | nil => intro i; simp only [List.nil_append, imagesCore, hpage]
    | cons p P ih =>
      intro i
      simp only [List.cons_append, imagesCore]
      cases hpp : (imagesCorePage i 0 p).2.2 with
      | some e2 => simp [hpp]
      | none => simp [hpp, ih]
  unfold analyzeImages
  dsimp only
  rw [analyzeImagesPages_char, analyzeImagesPages_char, hcore 0]

/-- C9 counterexample: font enumeration fails on the second page after the
first page yielded `"Arial"`: nothing is recorded in `details.fonts` (the
partial set is lost), and the failure surfaces as the orchestrator's unscored
flag (score 0, not severity 1) — contradicting both halves of the claim. -/
theorem C9_counterexample :
    (detect doc9cx initDetector).details.fonts = none
    ∧ (detect doc9cx initDetector).flags = [failMsg "Font" "read fail"]
    ∧ (detect doc9cx initDetector).suspicion_score = 0 := by
  refine ⟨?_, ?_, ?_⟩ <;> decide

/-- C9 (amended): when font enumeration completes, the distinct base-font set
is recorded in `details.fonts` (duplicate-free); when it fails partway, the
detector state is unchanged except for the orchestrator's single unscored
`"Font analysis failed: <cause>"` flag, and `details.fonts` is not recorded. -/
theorem C9_amended_fonts (pages : List (Except String (List String))) (det : Detector) :
    (∀ fonts, collectFonts pages [] = .ok fonts →
        runModule "Font" (checkFonts (.ok pages)) det =
          { det with details := { det.details with fonts := some fonts } }
        ∧ fonts.Nodup)
    ∧ (∀ e, collectFonts pages [] = .error e →
        runModule "Font" (checkFonts (.ok pages)) det =
          { det with flags := det.flags ++ [failMsg "Font" e] }) := by
  constructor
  · intro fonts hok
    constructor
    · have hsnd : (checkFonts (.ok pages) det).2 = none := by
        rw [checkFonts_snd]
        simp [fontsErr, hok]
      rw [runModule_eq_none _ _ _ hsnd]
      show (checkFonts (.ok pages) det).1 = _
      unfold checkFonts
      dsimp only
      rw [hok]
    · exact collectFonts_nodup pages [] List.nodup_nil fonts hok
  · intro e herr
    have hsnd : (checkFonts (.ok pages) det).2 = some e := by
      rw [checkFonts_snd]
      simp [fontsErr, herr]
    rw [runModule_eq_some _ _ _ e hsnd]
    have h1 : (checkFonts (.ok pages) det).1 = det := by
      unfold checkFonts
      dsimp only
      rw [herr]
    rw [h1]

/-- Witness for C9: a successful enumeration records the duplicate-free set. -/
theorem C9_witness :
    runModule "Font" (checkFonts (.ok pages9w)) initDetector =
      { initDetector with
        details := { initDetails with fonts := some ["Arial", "Times"] } } := by
  have h := ((C9_amended_fonts pages9w initDetector).1 ["Arial", "Times"] rfl).1
  rw [h]
  rfl

/-- C10: a second `detect` call on the same instance does not reset state:
the second report's flags are the first run's flags twice (each flag counted
twice) and its suspicion score is exactly double, because `detect` appends to
the instance's existing flags and score. -/
theorem C10_detect_accumulates (doc : Doc) :
    (detect doc (detect doc initDetector)).flags =
      (detect doc initDetector).flags ++ (detect doc initDetector).flags
    ∧ (detect doc (detect doc initDetector)).suspicion_score =
        2 * (detect doc initDetector).suspicion_score
    ∧ ∀ msg : String,
        ((detect doc (detect doc initDetector)).flags).count msg =
          2 * ((detect doc initDetector).flags).count msg := by
  have hflags : ∀ det : Detector,
      (detect doc det).flags = det.flags ++ (detect doc initDetector).flags := by
    intro det
    rw [detect_flags, detect_flags]
    have h0 : initDetector.flags = [] := rfl
    rw [h0]
    simp [List.append_assoc]
  have hscore : ∀ det : Detector,
      (detect doc det).suspicion_score =
        det.suspicion_score + (detect doc initDetector).suspicion_score := by
    intro det
    rw [detect_score, detect_score]
    have h0 : initDetector.suspicion_score = 0 := rfl
    omega
  refine ⟨hflags _, ?_, ?_⟩
  · rw [hscore]
    omega
  · intro msg
    rw [hflags (detect doc initDetector), List.count_append]
    omega

end PdfForensics
